import Mathlib

/-!
Shallow embedding of the sui-echo content-attestation verification service.

Sources embedded:
- `src/sui-echo-web/src/app/api/verify/route.ts` (POST /api/verify, on-chain
  transaction variant) — modelled as `verifyPOST`;
- `src/unnamed/part_003`, second document (POST /api/verify, attestation
  variant) — modelled as `attestPOST`;
- `src/nautilus-worker/index.js` (POST /verify) shares the validation,
  sanitization, verification-check and response logic of `route.ts`
  verbatim for the lines the claims cite.

External effects are modelled as explicit inputs: the Walrus fetch becomes a
function `fetch : String → FetchOutcome` applied to the sanitized blob id;
the Sui transaction submission becomes `submit : String → TxResult`; the
SHA-256 hex digest (Node `crypto.createHash('sha256')...digest('hex')`, a
deterministic third-party primitive) becomes an abstract function
`hash : String → String`; Ed25519 signing (`keypair.sign`) becomes
`sign : String → List Nat → List Nat` and the public-key derivation
`pubKey : String → List Nat`.  JavaScript string values that the code tests
for truthiness are modelled as `String` (empty = falsy) or `Option String`
(`none` = absent/non-string, `some ""` = present but falsy).

String length is modelled as codepoint count (JS `.length` counts UTF-16
units; the two agree on all inputs appearing in the claims).  Wall-clock
timestamps in responses are omitted: no claim mentions them.
-/

/-- Character class kept by the blob-id sanitizer:
`blobId.replace(/[^a-zA-Z0-9_-]/g, '')` keeps exactly `[A-Za-z0-9_-]`,
written over codepoints: 97–122 = `a`–`z`, 65–90 = `A`–`Z`,
48–57 = `0`–`9`, 95 = `_`, 45 = `-`. -/
def isBlobIdChar (c : Char) : Bool :=
  let n := c.toNat
  (97 ≤ n && n ≤ 122) || (65 ≤ n && n ≤ 90) || (48 ≤ n && n ≤ 57)
    || n == 95 || n == 45

/-- Character class kept by the handout-id sanitizer:
`handoutId.replace(/[^a-zA-Z0-9x]/g, '')` keeps `[a-zA-Z0-9x]`
(`x`, codepoint 120, is already inside `a`–`z`). -/
def isHandoutIdChar (c : Char) : Bool :=
  let n := c.toNat
  (97 ≤ n && n ≤ 122) || (65 ≤ n && n ≤ 90) || (48 ≤ n && n ≤ 57)
    || n == 120

/-- `const sanitizedBlobId = blobId.replace(/[^a-zA-Z0-9_-]/g, '')`:
delete every character outside the class. -/
def sanitizeBlobId (s : String) : String :=
  (s.toList.filter isBlobIdChar).asString

/-- `const sanitizedHandoutId = handoutId.replace(/[^a-zA-Z0-9x]/g, '')`. -/
def sanitizeHandoutId (s : String) : String :=
  (s.toList.filter isHandoutIdChar).asString

/-- Input validation plus sanitization, lines 44–59 of `route.ts` (identical
in the worker and in the attestation route): a missing / non-string
(`none`) or empty (falsy) `blobId` or `handoutId` yields the 400 client
error; otherwise both ids are sanitized and the pipeline continues. -/
def validateAndSanitize (blobId handoutId : Option String) :
    Except String (String × String) :=
  match blobId with
  | none => .error "Missing or invalid blobId"
  | some b =>
    if b = "" then .error "Missing or invalid blobId"
    else
      match handoutId with
      | none => .error "Missing or invalid handoutId"
      | some h =>
        if h = "" then .error "Missing or invalid handoutId"
        else .ok (sanitizeBlobId b, sanitizeHandoutId h)

/-- The per-check verification record
(`verificationResults` in all three routes). -/
structure VerificationResults where
  minLengthCheck : Bool
  hashCheck : Bool
  contentIntegrity : Bool
deriving DecidableEq, Repr

/-- `expectedHash ? contentHash === expectedHash : true` — the expected hash
participates only when truthy (present and non-empty). -/
def hashCheckOf (hash : String → String) (textContent : String)
    (expectedHash : Option String) : Bool :=
  match expectedHash with
  | none => true
  | some e => if e = "" then true else hash textContent == e

/-- ```
const verificationResults = {
    minLengthCheck: textContent.length >= 10,
    hashCheck: expectedHash ? contentHash === expectedHash : true,
    contentIntegrity: true,
};
``` -/
def verificationResults (hash : String → String) (textContent : String)
    (expectedHash : Option String) : VerificationResults :=
  { minLengthCheck := decide (textContent.length ≥ 10)
  , hashCheck := hashCheckOf hash textContent expectedHash
  , contentIntegrity := true }

/-- `const isVerified = Object.values(verificationResults).every(v => v)`. -/
def isVerified (r : VerificationResults) : Bool :=
  r.minLengthCheck && r.hashCheck && r.contentIntegrity

/-- The canonicalize-then-evaluate stage shared by every variant: decode the
fetched bytes to text (the text itself is the canonical form), hash it, and
run the policy checks. -/
def canonicalizeAndEvaluate (hash : String → String) (textContent : String)
    (expectedHash : Option String) : String × VerificationResults :=
  (hash textContent, verificationResults hash textContent expectedHash)

/-! ## Signed-message framing (attestation route, `src/unnamed/part_003`) -/

/-- JavaScript `s.replace('0x', '')`: delete the first occurrence of the
substring `"0x"` (not only a leading one), leave the rest unchanged. -/
def removeFirst0x : List Char → List Char
  | [] => []
  | '0' :: 'x' :: rest => rest
  | c :: rest => c :: removeFirst0x rest

/-- Numeric value of a hex digit, `none` on a non-hex character, written
over codepoints: `0`–`9` are 48–57, `a`–`f` are 97–102 (value = code − 87),
`A`–`F` are 65–70 (value = code − 55). -/
def hexVal (c : Char) : Option Nat :=
  let n := c.toNat
  if 48 ≤ n && n ≤ 57 then some (n - 48)
  else if 97 ≤ n && n ≤ 102 then some (n - 87)
  else if 65 ≤ n && n ≤ 70 then some (n - 55)
  else none

/-- Node `Buffer.from(str, 'hex')`: decode consecutive hex-digit pairs into
bytes, stopping at the first invalid pair or at a trailing lone digit. -/
def hexDecodeLoose : List Char → List Nat
  | c1 :: c2 :: rest =>
    match hexVal c1, hexVal c2 with
    | some hi, some lo => (16 * hi + lo) :: hexDecodeLoose rest
    | _, _ => []
  | _ => []

/-- UTF-8 encoding of one scalar value (`Buffer.from(s, 'utf8')`,
byte by byte). -/
def utf8EncodeChar (c : Char) : List Nat :=
  let n := c.toNat
  if n < 0x80 then [n]
  else if n < 0x800 then [0xC0 + n / 64, 0x80 + n % 64]
  else if n < 0x10000 then
    [0xE0 + n / 4096, 0x80 + (n / 64) % 64, 0x80 + n % 64]
  else
    [0xF0 + n / 262144, 0x80 + (n / 4096) % 64, 0x80 + (n / 64) % 64,
     0x80 + n % 64]

/-- `Buffer.from(s, 'utf8')` as a byte list. -/
def utf8Encode (s : String) : List Nat :=
  (s.toList.map utf8EncodeChar).flatten

/-- Bytes the attestation route derives from the (sanitized) handout id:
```
const handoutIdHex = sanitizedHandoutId.replace('0x', '');
const handoutIdBytes = Buffer.from(handoutIdHex, 'hex');
``` -/
def handoutIdBytes (handoutId : String) : List Nat :=
  hexDecodeLoose (removeFirst0x handoutId.toList)

/-- The canonical signed message of the attestation route:
`Buffer.concat([handoutIdBytes, blobIdBytes])` — raw concatenation of the
hex-decoded handout id and the UTF-8 blob id, with no delimiter, length
prefix or fixed width. -/
def signedMessage (handoutId blobId : String) : List Nat :=
  handoutIdBytes handoutId ++ utf8Encode blobId

/-! ## Fetch stage -/

/-- Outcome of the Walrus fetch for the sanitized blob id:
`ok` is a 2xx response decoded to text; `notFound` a 404; `httpError` any
other non-ok status (thrown, caught as a 500); `timeout` the 30-second
`AbortSignal` / `ECONNABORTED` expiry (504). -/
inductive FetchOutcome where
  | ok (textContent : String)
  | notFound
  | httpError (status : Nat)
  | timeout
deriving DecidableEq, Repr

/-! ## Attestation variant (`src/unnamed/part_003`, second document) -/

/-- The attestation object returned by the attestation route (the ISO
timestamp string is omitted — no claim mentions it). -/
structure Attestation where
  signature : List Nat
  publicKey : List Nat
  message : List Nat
  handoutId : String
  blobId : String
deriving DecidableEq, Repr

/-- Responses of the attestation route, one constructor per `return`. -/
inductive AttestResponse where
  | clientError (msg : String)
  | notFound
  | fetchTimeout
  | serverError
  | rejected (details : VerificationResults) (contentHash : String)
  | verifiedLocally (contentHash : String) (results : VerificationResults)
  | attestationReady (contentHash : String) (results : VerificationResults)
      (attestation : Attestation)
deriving DecidableEq, Repr

/-- HTTP status code of each attestation-route response. -/
def AttestResponse.statusCode : AttestResponse → Nat
  | .clientError _ => 400
  | .notFound => 404
  | .fetchTimeout => 504
  | .serverError => 500
  | .rejected _ _ => 422
  | .verifiedLocally _ _ => 200
  | .attestationReady _ _ _ => 200

/-- Whether an attestation-route response carries an attestation field. -/
def AttestResponse.hasAttestation : AttestResponse → Bool
  | .attestationReady _ _ _ => true
  | _ => false

/-- The attestation route after a completed fetch: verification checks,
422 rejection, `verified_locally` degradation when `ADMIN_SECRET_KEY` is
falsy, otherwise Ed25519 attestation over `signedMessage`. -/
def attestAfterFetch (hash : String → String)
    (sign : String → List Nat → List Nat) (pubKey : String → List Nat)
    (adminSecretKey : String) (sanitizedBlobId sanitizedHandoutId : String)
    (expectedHash : Option String) (outcome : FetchOutcome) :
    AttestResponse :=
  match outcome with
  | .notFound => .notFound
  | .timeout => .fetchTimeout
  | .httpError _ => .serverError
  | .ok textContent =>
    let contentHash := hash textContent
    let results := verificationResults hash textContent expectedHash
    if isVerified results = false then .rejected results contentHash
    else if adminSecretKey = "" then .verifiedLocally contentHash results
    else
      let message := signedMessage sanitizedHandoutId sanitizedBlobId
      .attestationReady contentHash results
        { signature := sign adminSecretKey message
        , publicKey := pubKey adminSecretKey
        , message := message
        , handoutId := sanitizedHandoutId
        , blobId := sanitizedBlobId }

/-- `POST /api/verify` of the attestation route (`src/unnamed/part_003`):
validate, sanitize, fetch from Walrus by the sanitized blob id, verify,
then sign (or degrade / reject). -/
def attestPOST (hash : String → String)
    (sign : String → List Nat → List Nat) (pubKey : String → List Nat)
    (adminSecretKey : String) (blobId handoutId expectedHash : Option String)
    (fetch : String → FetchOutcome) : AttestResponse :=
  match validateAndSanitize blobId handoutId with
  | .error msg => .clientError msg
  | .ok (sanitizedBlobId, sanitizedHandoutId) =>
    attestAfterFetch hash sign pubKey adminSecretKey sanitizedBlobId
      sanitizedHandoutId expectedHash (fetch sanitizedBlobId)

/-! ## On-chain transaction variant (`route.ts`, worker `index.js`) -/

/-- `result.effects?.status` of the submitted Sui transaction. -/
structure TxEffectsStatus where
  status : String
  error : Option String
deriving DecidableEq, Repr

/-- Result of `client.signAndExecuteTransaction` (modelled fields only:
the digest and the optional effects status the code inspects). -/
structure TxResult where
  digest : String
  effectsStatus : Option TxEffectsStatus
deriving DecidableEq, Repr

/-- `result.effects?.status?.status !== 'success'` (negated). -/
def txSucceeded (r : TxResult) : Bool :=
  match r.effectsStatus with
  | some st => st.status == "success"
  | none => false

/-- `result.effects?.status?.error || 'Transaction execution failed'`. -/
def txErrorMessage (r : TxResult) : String :=
  match r.effectsStatus with
  | some st =>
    match st.error with
    | some e => if e = "" then "Transaction execution failed" else e
    | none => "Transaction execution failed"
  | none => "Transaction execution failed"

/-- The attestation object of the on-chain route's success response
(timestamp omitted; `verifier` is the admin key's Sui address). -/
structure OnchainAttestation where
  type : String
  verifier : String
deriving DecidableEq, Repr

/-- Responses of the on-chain route, one constructor per `return`. -/
inductive VerifyResponse where
  | clientError (msg : String)
  | notFound
  | fetchTimeout
  | serverError
  | rejected (details : VerificationResults) (contentHash : String)
  | verifiedLocally (contentHash : String) (results : VerificationResults)
  | transactionFailed (error : String) (digest : String)
  | verifiedOnchain (digest : String) (contentHash : String)
      (results : VerificationResults) (attestation : OnchainAttestation)
deriving DecidableEq, Repr

/-- HTTP status code of each on-chain-route response. -/
def VerifyResponse.statusCode : VerifyResponse → Nat
  | .clientError _ => 400
  | .notFound => 404
  | .fetchTimeout => 504
  | .serverError => 500
  | .rejected _ _ => 422
  | .verifiedLocally _ _ => 200
  | .transactionFailed _ _ => 500
  | .verifiedOnchain _ _ _ _ => 200

/-- Whether an on-chain-route response carries an attestation field. -/
def VerifyResponse.hasAttestation : VerifyResponse → Bool
  | .verifiedOnchain _ _ _ _ => true
  | _ => false

/-- `!PACKAGE_ID || PACKAGE_ID === '0x...'` (negated): the package id is
usable only when non-empty and not the placeholder. -/
def packageIdConfigured (packageId : String) : Bool :=
  packageId != "" && packageId != "0x..."

/-- The on-chain route after a completed fetch: verification checks, 422
rejection, `verified_locally` degradation when the admin key or package id
is unconfigured, otherwise sign-and-submit the `verify_handout` move call
and report `transaction_failed` or `verified_onchain`. -/
def verifyAfterFetch (hash : String → String) (suiAddress : String → String)
    (adminSecretKey packageId : String) (submit : String → TxResult)
    (sanitizedHandoutId : String) (expectedHash : Option String)
    (outcome : FetchOutcome) : VerifyResponse :=
  match outcome with
  | .notFound => .notFound
  | .timeout => .fetchTimeout
  | .httpError _ => .serverError
  | .ok textContent =>
    let contentHash := hash textContent
    let results := verificationResults hash textContent expectedHash
    if isVerified results = false then .rejected results contentHash
    else if adminSecretKey = "" then .verifiedLocally contentHash results
    else if packageIdConfigured packageId = false then
      .verifiedLocally contentHash results
    else
      let result := submit sanitizedHandoutId
      if txSucceeded result = false then
        .transactionFailed (txErrorMessage result) result.digest
      else
        .verifiedOnchain result.digest contentHash results
          { type := "SUI_ECHO_TEE_VERIFICATION_V1"
          , verifier := suiAddress adminSecretKey }

/-- `POST /api/verify` of `route.ts` (and `POST /verify` of the worker):
validate, sanitize, fetch from Walrus by the sanitized blob id, verify,
then submit the on-chain verification transaction (or degrade / reject). -/
def verifyPOST (hash : String → String) (suiAddress : String → String)
    (adminSecretKey packageId : String) (submit : String → TxResult)
    (blobId handoutId expectedHash : Option String)
    (fetch : String → FetchOutcome) : VerifyResponse :=
  match validateAndSanitize blobId handoutId with
  | .error msg => .clientError msg
  | .ok (sanitizedBlobId, sanitizedHandoutId) =>
    verifyAfterFetch hash suiAddress adminSecretKey packageId submit
      sanitizedHandoutId expectedHash (fetch sanitizedBlobId)

/-! ## Concrete instantiations of the abstract external functions, used to
evaluate the parametric theorems on closed inputs. -/

/-- A concrete stand-in for the SHA-256 hex digest. -/
def hashStub : String → String := fun s => "#" ++ s

/-- A concrete stand-in for Ed25519 signing. -/
def signStub : String → List Nat → List Nat := fun _ m => m

/-- A concrete stand-in for public-key derivation. -/
def pubKeyStub : String → List Nat := fun _ => [1]

/-- A concrete stand-in for the Sui address of the admin key. -/
def suiAddressStub : String → String := fun _ => "0xaddr"

/-- A concrete fetch returning ten characters of text for every id. -/
def fetchStub : String → FetchOutcome := fun _ => .ok "0123456789"

/-- A concrete submission whose transaction succeeds. -/
def submitOkStub : String → TxResult :=
  fun _ => { digest := "0xd", effectsStatus := some ⟨"success", none⟩ }

/-- A concrete submission whose transaction fails with error "boom". -/
def submitFailStub : String → TxResult :=
  fun _ => { digest := "0xd", effectsStatus := some ⟨"failure", some "boom"⟩ }

/-! ## Theorems -/

/-- C4: for every successfully fetched and canonicalized content, `evaluate`
produces a verdict of exactly the three independently recorded named checks
— `minLengthCheck` (canonical length ≥ 10), `hashCheck` (equal to the
computed digest when an expected digest is supplied, trivially true when
none is supplied), `contentIntegrity` (true on successful fetch/decode) —
and the overall pass is the logical AND of the three. -/
theorem verdict_three_checks_and_overall (hash : String → String)
    (textContent : String) (expectedHash : Option String)
    (r : VerificationResults)
    (hr : r = verificationResults hash textContent expectedHash) :
    r.minLengthCheck = decide (textContent.length ≥ 10)
    ∧ r.contentIntegrity = true
    ∧ (expectedHash = none → r.hashCheck = true)
    ∧ (∀ e, expectedHash = some e → e ≠ "" →
        r.hashCheck = (hash textContent == e))
    ∧ isVerified r = (r.minLengthCheck && r.hashCheck && r.contentIntegrity)
    := by
  subst hr
  refine ⟨rfl, rfl, ?_, ?_, rfl⟩
  · rintro rfl
    rfl
  · rintro e rfl he
    simp [verificationResults, hashCheckOf, he]

/-- Witness for C4 at `hashStub`, content `"0123456789"`, expected hash
`"x"`. -/
theorem verdict_three_checks_and_overall_witness :
    (verificationResults hashStub "0123456789" (some "x")).hashCheck
      = (hashStub "0123456789" == "x") :=
  (verdict_three_checks_and_overall hashStub "0123456789" (some "x")
    _ rfl).2.2.2.1 "x" rfl (by decide)

/-- C10: the presence of the caller's expected digest is decided by
truthiness — with `expectedHash = ""` the `hashCheck` is true regardless of
the computed digest, exactly as if no expected digest had been supplied. -/
theorem empty_expected_hash_treated_as_absent (hash : String → String)
    (textContent : String) :
    verificationResults hash textContent (some "")
      = verificationResults hash textContent none
    ∧ (verificationResults hash textContent (some "")).hashCheck = true :=
  ⟨rfl, rfl⟩

/-- C5: canonicalization and evaluation are deterministic — two runs of
`canonicalize` followed by `evaluate` on the same input bytes and the same
optional expected digest produce the identical content digest and the
identical verdict. -/
theorem canonicalize_evaluate_deterministic (hash : String → String)
    (textContent : String) (expectedHash : Option String)
    (run1 run2 : String × VerificationResults)
    (h1 : run1 = canonicalizeAndEvaluate hash textContent expectedHash)
    (h2 : run2 = canonicalizeAndEvaluate hash textContent expectedHash) :
    run1.1 = run2.1 ∧ run1.2 = run2.2 := by
  subst h1
  subst h2
  exact ⟨rfl, rfl⟩

/-- Witness for C5 at `hashStub`, content `"hello"`, no expected digest. -/
theorem canonicalize_evaluate_deterministic_witness :
    (canonicalizeAndEvaluate hashStub "hello" none).1
      = (canonicalizeAndEvaluate hashStub "hello" none).1
    ∧ (canonicalizeAndEvaluate hashStub "hello" none).2
      = (canonicalizeAndEvaluate hashStub "hello" none).2 :=
  canonicalize_evaluate_deterministic hashStub "hello" none _ _ rfl rfl

/-- C9: a non-empty blob id containing no characters of `[A-Za-z0-9_-]`
passes input validation (only a missing / non-string / falsy blob id is
rejected with 400) and the pipeline proceeds to fetch with the empty
sanitized content identifier instead of returning a 400 client error. -/
theorem invalid_chars_blobId_passes_validation
    (hash suiAddress : String → String) (adminSecretKey packageId : String)
    (submit : String → TxResult) (blobId handoutId : String)
    (expectedHash : Option String) (fetch : String → FetchOutcome)
    (hb : blobId ≠ "")
    (hinv : ∀ c ∈ blobId.toList, isBlobIdChar c = false)
    (hh : handoutId ≠ "") :
    validateAndSanitize (some blobId) (some handoutId)
      = .ok ("", sanitizeHandoutId handoutId)
    ∧ verifyPOST hash suiAddress adminSecretKey packageId submit
        (some blobId) (some handoutId) expectedHash fetch
      = verifyAfterFetch hash suiAddress adminSecretKey packageId submit
          (sanitizeHandoutId handoutId) expectedHash (fetch "") := by
  have hsan : sanitizeBlobId blobId = "" := by
    unfold sanitizeBlobId
    have hnil : blobId.toList.filter isBlobIdChar = [] := by
      rw [List.filter_eq_nil_iff]
      intro a ha
      simp [hinv a ha]
    rw [hnil]
    rfl
  have hval : validateAndSanitize (some blobId) (some handoutId)
      = .ok ("", sanitizeHandoutId handoutId) := by
    simp only [validateAndSanitize]
    rw [if_neg hb, if_neg hh, hsan]
  refine ⟨hval, ?_⟩
  unfold verifyPOST
  rw [hval]

/-- Witness for C9 at blob id `"!!!"` and handout id `"0x1"`. -/
theorem invalid_chars_blobId_passes_validation_witness :
    validateAndSanitize (some "!!!") (some "0x1")
      = .ok ("", sanitizeHandoutId "0x1")
    ∧ verifyPOST hashStub suiAddressStub "" "" submitOkStub (some "!!!")
        (some "0x1") none fetchStub
      = verifyAfterFetch hashStub suiAddressStub "" "" submitOkStub
          (sanitizeHandoutId "0x1") none (fetchStub "") :=
  invalid_chars_blobId_passes_validation hashStub suiAddressStub "" ""
    submitOkStub "!!!" "0x1" none fetchStub (by decide) (by decide)
    (by decide)

/-- C3 counterexample: an id that does not match `[A-Za-z0-9_-]+` is not
rejected — `"abc!"` passes validation, is silently stripped to `"abc"`,
and collides with the distinct legitimate id `"abc"`. -/
theorem sanitize_silently_strips_counterexample :
    sanitizeBlobId "abc!" = sanitizeBlobId "abc"
    ∧ "abc!" ≠ "abc"
    ∧ validateAndSanitize (some "abc!") (some "0x1") = .ok ("abc", "0x1")
    ∧ validateAndSanitize (some "abc") (some "0x1") = .ok ("abc", "0x1") :=
  ⟨rfl, by decide, rfl, rfl⟩

/-- C3 amended: sanitization is the identity on ids already matching
`[A-Za-z0-9_-]` and its output always lies in that class, and every
non-empty blob id passes validation with its sanitized form — characters
outside the class are silently stripped rather than rejected. -/
theorem sanitize_identity_and_closure (s blobId handoutId : String)
    (hs : ∀ c ∈ s.toList, isBlobIdChar c = true)
    (hb : blobId ≠ "") (hh : handoutId ≠ "") :
    sanitizeBlobId s = s
    ∧ (∀ c ∈ (sanitizeBlobId blobId).toList, isBlobIdChar c = true)
    ∧ validateAndSanitize (some blobId) (some handoutId)
      = .ok (sanitizeBlobId blobId, sanitizeHandoutId handoutId) := by
  refine ⟨?_, ?_, ?_⟩
  · unfold sanitizeBlobId
    rw [List.filter_eq_self.mpr hs, String.asString_toList]
  · intro c hc
    unfold sanitizeBlobId at hc
    rw [List.toList_asString] at hc
    exact (List.mem_filter.mp hc).2
  · simp only [validateAndSanitize]
    rw [if_neg hb, if_neg hh]

/-- Witness for C3 (amended) at valid id `"abc"`, raw id `"abc!"`,
handout id `"0x1"`. -/
theorem sanitize_identity_and_closure_witness :
    sanitizeBlobId "abc" = "abc"
    ∧ (∀ c ∈ (sanitizeBlobId "abc!").toList, isBlobIdChar c = true)
    ∧ validateAndSanitize (some "abc!") (some "0x1")
      = .ok (sanitizeBlobId "abc!", sanitizeHandoutId "0x1") :=
  sanitize_identity_and_closure "abc" "abc!" "0x1" (by decide) (by decide)
    (by decide)

/-- C2 counterexample: the attestation route's raw concatenation admits a
framing collision — the distinct identifier pairs (handout `"0x4141"`,
blob `"B"`) and (handout `"0x41"`, blob `"AB"`) are both legitimate
(sanitization-invariant) and produce the identical signed byte string. -/
theorem signedMessage_concat_collision :
    signedMessage "0x4141" "B" = signedMessage "0x41" "AB"
    ∧ (("0x4141", "B") : String × String) ≠ ("0x41", "AB")
    ∧ sanitizeHandoutId "0x4141" = "0x4141" ∧ sanitizeBlobId "B" = "B"
    ∧ sanitizeHandoutId "0x41" = "0x41" ∧ sanitizeBlobId "AB" = "AB" :=
  ⟨rfl, by decide, rfl, rfl, rfl, rfl⟩

/-- On a character below `0x80` the UTF-8 encoding is the single byte of
the codepoint. -/
theorem utf8EncodeChar_ascii (c : Char) (h : c.toNat < 128) :
    utf8EncodeChar c = [c.toNat] := by
  simp [utf8EncodeChar, h]

/-- On an all-ASCII character list the UTF-8 encoding is the codepoint
list. -/
theorem utf8Encode_ascii (l : List Char) (h : ∀ c ∈ l, c.toNat < 128) :
    (l.map utf8EncodeChar).flatten = l.map Char.toNat := by
  induction l with
  | nil => rfl
  | cons c l ih =>
    simp only [List.map_cons, List.flatten_cons]
    rw [utf8EncodeChar_ascii c (h c (List.mem_cons_self c l)),
      ih (fun x hx => h x (List.mem_cons_of_mem c hx))]
    rfl

/-- `Char.toNat` is injective. -/
theorem char_toNat_injective : Function.Injective Char.toNat := by
  intro c d h
  have h1 := congrArg Char.ofNat h
  rwa [Char.ofNat_toNat, Char.ofNat_toNat] at h1

/-- C2 amended: full injectivity of the signed message fails (see the raw
concatenation collision), but it holds componentwise — for a fixed handout
id, distinct ASCII blob ids give different signed messages, and for a
fixed blob id, handout ids with different decoded byte strings give
different signed messages. -/
theorem signedMessage_componentwise_injective
    (h b1 b2 h1 h2 b : String)
    (hb12 : b1 ≠ b2)
    (ha1 : ∀ c ∈ b1.toList, c.toNat < 128)
    (ha2 : ∀ c ∈ b2.toList, c.toNat < 128)
    (hh12 : handoutIdBytes h1 ≠ handoutIdBytes h2) :
    signedMessage h b1 ≠ signedMessage h b2
    ∧ signedMessage h1 b ≠ signedMessage h2 b := by
  constructor
  · intro heq
    unfold signedMessage at heq
    have hu : utf8Encode b1 = utf8Encode b2 := List.append_cancel_left heq
    unfold utf8Encode at hu
    rw [utf8Encode_ascii _ ha1, utf8Encode_ascii _ ha2] at hu
    have hl : b1.toList = b2.toList :=
      List.map_injective_iff.mpr char_toNat_injective hu
    exact hb12 (String.toList_inj.mp hl)
  · intro heq
    unfold signedMessage at heq
    exact hh12 (List.append_cancel_right heq)

/-- Witness for C2 (amended) at handout ids `"0x"`, `"0x41"`, `"0x42"` and
blob ids `"A"`, `"B"`, `"Z"`. -/
theorem signedMessage_componentwise_injective_witness :
    signedMessage "0x" "A" ≠ signedMessage "0x" "B"
    ∧ signedMessage "0x41" "Z" ≠ signedMessage "0x42" "Z" :=
  signedMessage_componentwise_injective "0x" "A" "B" "0x41" "0x42" "Z"
    (by decide) (by decide) (by decide) (by decide)

/-- Any attestation the attestation stage returns carries an all-passing
verdict, whatever the fetch outcome and configuration. -/
theorem attestAfterFetch_attestation_sound
    (hash : String → String) (sign : String → List Nat → List Nat)
    (pubKey : String → List Nat) (key sb sh : String)
    (expectedHash : Option String) (outcome : FetchOutcome)
    (ch : String) (res : VerificationResults) (att : Attestation)
    (hatt : attestAfterFetch hash sign pubKey key sb sh expectedHash outcome
      = .attestationReady ch res att) :
    isVerified res = true := by
  unfold attestAfterFetch at hatt
  cases outcome with
  | ok tc =>
    cases hv : isVerified (verificationResults hash tc expectedHash) with
    | false => simp [hv] at hatt
    | true =>
      by_cases hk : key = ""
      · simp [hv, hk] at hatt
      · simp [hv, hk] at hatt
        obtain ⟨-, hres, -⟩ := hatt
        rw [← hres]
        exact hv
  | notFound => simp at hatt
  | httpError s => simp at hatt
  | timeout => simp at hatt

/-- C1: a failing verdict always yields the 422 rejection carrying the
per-check results and no attestation; with the signing key configured, an
attestation is returned iff the verdict passes; and no attestation over a
failing verdict is ever produced, over all inputs and configurations. -/
theorem attest_no_attestation_without_pass
    (hash : String → String) (sign : String → List Nat → List Nat)
    (pubKey : String → List Nat) (adminSecretKey : String)
    (blobId handoutId expectedHash : Option String)
    (fetch : String → FetchOutcome) (sb sh textContent : String)
    (r : VerificationResults)
    (hval : validateAndSanitize blobId handoutId = .ok (sb, sh))
    (hfetch : fetch sb = .ok textContent)
    (hr : r = verificationResults hash textContent expectedHash) :
    (isVerified r = false →
      attestPOST hash sign pubKey adminSecretKey blobId handoutId
          expectedHash fetch
        = .rejected r (hash textContent)
      ∧ AttestResponse.statusCode (.rejected r (hash textContent)) = 422
      ∧ AttestResponse.hasAttestation (.rejected r (hash textContent))
          = false)
    ∧ (adminSecretKey ≠ "" →
        AttestResponse.hasAttestation
          (attestPOST hash sign pubKey adminSecretKey blobId handoutId
            expectedHash fetch)
          = isVerified r)
    ∧ (∀ key2 blobId2 handoutId2 expectedHash2 fetch2 ch res att,
        attestPOST hash sign pubKey key2 blobId2 handoutId2 expectedHash2
            fetch2
          = .attestationReady ch res att
        → isVerified res = true) := by
  have hpipe : attestPOST hash sign pubKey adminSecretKey blobId handoutId
      expectedHash fetch
      = attestAfterFetch hash sign pubKey adminSecretKey sb sh expectedHash
          (.ok textContent) := by
    simp only [attestPOST, hval, hfetch]
  subst hr
  refine ⟨?_, ?_, ?_⟩
  · intro hfail
    refine ⟨?_, rfl, rfl⟩
    rw [hpipe]
    simp only [attestAfterFetch]
    rw [if_pos hfail]
  · intro hk
    rw [hpipe]
    cases hv : isVerified (verificationResults hash textContent expectedHash)
      with
    | false => simp [attestAfterFetch, hv, AttestResponse.hasAttestation]
    | true => simp [attestAfterFetch, hv, hk, AttestResponse.hasAttestation]
  · intro key2 blobId2 handoutId2 expectedHash2 fetch2 ch res att hatt
    unfold attestPOST at hatt
    cases hv : validateAndSanitize blobId2 handoutId2 with
    | error msg =>
      rw [hv] at hatt
      exact absurd hatt (by simp)
    | ok p =>
      obtain ⟨sb2, sh2⟩ := p
      rw [hv] at hatt
      exact attestAfterFetch_attestation_sound _ _ _ _ _ _ _ _ _ _ _ hatt

/-- Witness for C1 at a passing run with configured key `"key"`. -/
theorem attest_no_attestation_without_pass_witness :
    AttestResponse.hasAttestation
      (attestPOST hashStub signStub pubKeyStub "key" (some "blob1234")
        (some "0x1") none fetchStub)
      = isVerified (verificationResults hashStub "0123456789" none) :=
  (attest_no_attestation_without_pass hashStub signStub pubKeyStub "key"
    (some "blob1234") (some "0x1") none fetchStub "blob1234" "0x1"
    "0123456789" _ rfl rfl rfl).2.1 (by decide)

/-- C6: when the signing key is absent but every check passes, the
pipeline returns the 200 `verified_locally` response carrying the content
digest and the full per-check verdict and no attestation field, instead of
failing the request. -/
theorem key_absent_degrades_to_verified_locally
    (hash suiAddress : String → String) (packageId : String)
    (submit : String → TxResult)
    (blobId handoutId expectedHash : Option String)
    (fetch : String → FetchOutcome) (sb sh textContent : String)
    (r : VerificationResults)
    (hval : validateAndSanitize blobId handoutId = .ok (sb, sh))
    (hfetch : fetch sb = .ok textContent)
    (hr : r = verificationResults hash textContent expectedHash)
    (hpass : isVerified r = true) :
    verifyPOST hash suiAddress "" packageId submit blobId handoutId
        expectedHash fetch
      = .verifiedLocally (hash textContent) r
    ∧ VerifyResponse.hasAttestation (.verifiedLocally (hash textContent) r)
        = false
    ∧ VerifyResponse.statusCode (.verifiedLocally (hash textContent) r)
        = 200 := by
  subst hr
  refine ⟨?_, rfl, rfl⟩
  simp [verifyPOST, hval, verifyAfterFetch, hfetch, hpass]

/-- Witness for C6 at a passing run with the key unset. -/
theorem key_absent_degrades_to_verified_locally_witness :
    verifyPOST hashStub suiAddressStub "" "0xpkg" submitOkStub
        (some "blob1234") (some "0x1") none fetchStub
      = .verifiedLocally (hashStub "0123456789")
          (verificationResults hashStub "0123456789" none)
    ∧ VerifyResponse.hasAttestation
        (.verifiedLocally (hashStub "0123456789")
          (verificationResults hashStub "0123456789" none)) = false
    ∧ VerifyResponse.statusCode
        (.verifiedLocally (hashStub "0123456789")
          (verificationResults hashStub "0123456789" none)) = 200 :=
  key_absent_degrades_to_verified_locally hashStub suiAddressStub "0xpkg"
    submitOkStub (some "blob1234") (some "0x1") none fetchStub "blob1234"
    "0x1" "0123456789" _ rfl rfl rfl (by decide)

/-- C8: a supplied expected digest differing from the computed digest makes
`hashCheck` false and yields the 422 rejection whose `contentHash` field is
the actually computed digest of the fetched content, not the
caller-supplied expected one. -/
theorem digest_mismatch_rejected_with_computed_digest
    (hash suiAddress : String → String) (adminSecretKey packageId : String)
    (submit : String → TxResult) (blobId handoutId : Option String)
    (e : String) (fetch : String → FetchOutcome) (sb sh textContent : String)
    (hval : validateAndSanitize blobId handoutId = .ok (sb, sh))
    (hfetch : fetch sb = .ok textContent)
    (he : e ≠ "") (hmism : e ≠ hash textContent) :
    (verificationResults hash textContent (some e)).hashCheck = false
    ∧ verifyPOST hash suiAddress adminSecretKey packageId submit blobId
        handoutId (some e) fetch
      = .rejected (verificationResults hash textContent (some e))
          (hash textContent)
    ∧ VerifyResponse.statusCode
        (.rejected (verificationResults hash textContent (some e))
          (hash textContent)) = 422
    ∧ hash textContent ≠ e := by
  have hneq : hash textContent ≠ e := fun h => hmism h.symm
  have hhc : (verificationResults hash textContent (some e)).hashCheck
      = false := by
    simp [verificationResults, hashCheckOf, he, hneq]
  have hfail : isVerified (verificationResults hash textContent (some e))
      = false := by
    simp [isVerified, hhc]
  refine ⟨hhc, ?_, rfl, hneq⟩
  simp only [verifyPOST, hval, verifyAfterFetch, hfetch]
  rw [if_pos hfail]

/-- Witness for C8 at expected digest `"zzz"` against computed digest
`hashStub "0123456789"`. -/
theorem digest_mismatch_rejected_with_computed_digest_witness :
    (verificationResults hashStub "0123456789" (some "zzz")).hashCheck
      = false
    ∧ verifyPOST hashStub suiAddressStub "key" "0xpkg" submitOkStub
        (some "blob1234") (some "0x1") (some "zzz") fetchStub
      = .rejected (verificationResults hashStub "0123456789" (some "zzz"))
          (hashStub "0123456789")
    ∧ VerifyResponse.statusCode
        (.rejected (verificationResults hashStub "0123456789" (some "zzz"))
          (hashStub "0123456789")) = 422
    ∧ hashStub "0123456789" ≠ "zzz" :=
  digest_mismatch_rejected_with_computed_digest hashStub suiAddressStub
    "key" "0xpkg" submitOkStub (some "blob1234") (some "0x1") "zzz"
    fetchStub "blob1234" "0x1" "0123456789" rfl rfl (by decide) (by decide)

/-- C7 counterexample: on a passing run whose downstream submission fails,
the response is `transaction_failed` with only the error and the
transaction digest — it does not return the attestation itself, contrary
to the claim. -/
theorem transaction_failure_lacks_attestation_counterexample :
    verifyPOST hashStub suiAddressStub "key" "0xpkg" submitFailStub
        (some "blob1234") (some "0x1") none fetchStub
      = .transactionFailed "boom" "0xd"
    ∧ VerifyResponse.hasAttestation (.transactionFailed "boom" "0xd")
        = false
    ∧ isVerified (verificationResults hashStub "0123456789" none) = true :=
  ⟨rfl, rfl, rfl⟩

/-- C7 amended: when verification passes and the submitted transaction
fails, the response is the `transaction_failed` failure (HTTP 500),
distinct from the 422 verification rejection, carrying the transaction
digest and error message but no attestation. -/
theorem transaction_failure_distinct_no_attestation
    (hash suiAddress : String → String) (adminSecretKey packageId : String)
    (submit : String → TxResult)
    (blobId handoutId expectedHash : Option String)
    (fetch : String → FetchOutcome) (sb sh textContent : String)
    (r : VerificationResults)
    (hval : validateAndSanitize blobId handoutId = .ok (sb, sh))
    (hfetch : fetch sb = .ok textContent)
    (hr : r = verificationResults hash textContent expectedHash)
    (hpass : isVerified r = true)
    (hkey : adminSecretKey ≠ "")
    (hpkg : packageIdConfigured packageId = true)
    (htx : txSucceeded (submit sh) = false) :
    verifyPOST hash suiAddress adminSecretKey packageId submit blobId
        handoutId expectedHash fetch
      = .transactionFailed (txErrorMessage (submit sh)) (submit sh).digest
    ∧ VerifyResponse.statusCode
        (.transactionFailed (txErrorMessage (submit sh))
          (submit sh).digest) = 500
    ∧ VerifyResponse.hasAttestation
        (.transactionFailed (txErrorMessage (submit sh))
          (submit sh).digest) = false := by
  subst hr
  refine ⟨?_, rfl, rfl⟩
  simp [verifyPOST, hval, verifyAfterFetch, hfetch, hpass, hkey, hpkg, htx]

/-- Witness for C7 (amended) at the failing submission `submitFailStub`. -/
theorem transaction_failure_distinct_no_attestation_witness :
    verifyPOST hashStub suiAddressStub "key" "0xpkg" submitFailStub
        (some "blob1234") (some "0x1") none fetchStub
      = .transactionFailed (txErrorMessage (submitFailStub "0x1"))
          (submitFailStub "0x1").digest
    ∧ VerifyResponse.statusCode
        (.transactionFailed (txErrorMessage (submitFailStub "0x1"))
          (submitFailStub "0x1").digest) = 500
    ∧ VerifyResponse.hasAttestation
        (.transactionFailed (txErrorMessage (submitFailStub "0x1"))
          (submitFailStub "0x1").digest) = false :=
  transaction_failure_distinct_no_attestation hashStub suiAddressStub "key"
    "0xpkg" submitFailStub (some "blob1234") (some "0x1") none fetchStub
    "blob1234" "0x1" "0123456789" _ rfl rfl rfl (by decide) (by decide)
    (by decide) (by decide)
